import Mathlib

/-! # The L1 subscriber of `l1/eth_subscriber.go`

A shallow embedding of the Go file `l1/eth_subscriber.go`: the header-injecting
transport `uniswapHeaderTransport`, the constructor `NewEthSubscriber`, the four
query methods `ChainID`, `FinalisedHeight`, `LatestHeight`, `TransactionReceipt`
and the subscription method `WatchLogStateUpdate`.

Conventions of the embedding.

* A Go result pair `(value, error)` is a Lean pair whose second component is an
  `Option GoError` (`none` is the nil error).  A nilable pointer that the code
  itself produces or dereferences is an `Option`.
* The libraries the file calls (`ethclient`, `rpc`, `contract`, `net/http`) are
  records of functions: what they answer is a parameter of every definition.
* The clock read by `time.Now` is a stream of monotonic readings in nanoseconds;
  the listener has a state of its own, threaded through every method.
* A run-time failure of the Go code (a nil dereference) is the result `none`.
-/

namespace l1

/-! ## Go error values -/

/-- An error value, as far as `errors.Is`, `errors.Unwrap` and `Error()` can tell.
`NotFound` is the package-level value `ethereum.NotFound`; `errorString` is any other
leaf error without methods of its own (a value of `errors.New`, a JSON-RPC error, a
network error); `wrapError` is a value of `fmt.Errorf` with one `%w` verb, holding the
whole message and the cause; `joinError` is a value of `errors.Join`, whose `Unwrap`
method returns a slice of errors.

The last three constructors are values of error types declared elsewhere, which may have
an `Is(error) bool` method: `answers` is what that method returns when asked about
`ethereum.NotFound` (`false` when the type has no such method). `customError` has no
`Unwrap` method or one that returns nil, `customWrap` has an `Unwrap() error` method and
`customJoin` an `Unwrap() []error` method. -/
inductive GoError where
  | NotFound : GoError
  | errorString (s : String) : GoError
  | wrapError (msg : String) (err : GoError) : GoError
  | joinError (errs : List GoError) : GoError
  | customError (msg : String) (answers : Bool) : GoError
  | customWrap (msg : String) (answers : Bool) (err : GoError) : GoError
  | customJoin (msg : String) (answers : Bool) (errs : List GoError) : GoError

namespace GoError

mutual
/-- The method `Error()`: the message of an error value. -/
def Error : GoError → String
  | NotFound => "not found"
  | errorString s => s
  | wrapError msg _ => msg
  | joinError errs => joinMessages errs
  | customError msg _ => msg
  | customWrap msg _ _ => msg
  | customJoin msg _ _ => msg
/-- The message of a joined error: the messages of its parts, one per line. -/
def joinMessages : List GoError → String
  | [] => ""
  | [e] => Error e
  | e :: e2 :: es => Error e ++ "\n" ++ joinMessages (e2 :: es)
end

end GoError

namespace ethereum

/-- The sentinel `ethereum.NotFound`. -/
def NotFound : GoError := GoError.NotFound

end ethereum

namespace errors

/-- The call `errors.New(text)`: a leaf error, distinct from every sentinel. -/
def New (text : String) : GoError := GoError.errorString text

/-- The call `errors.Unwrap(err)`: the result of the method `Unwrap() error` when the
error has one, nil for every other error (a joined error has no single cause). -/
def Unwrap : GoError → Option GoError
  | GoError.wrapError _ err => some err
  | GoError.customWrap _ _ err => some err
  | _ => none

mutual
/-- The call `errors.Is(err, ethereum.NotFound)`: the walk of the standard library over
the error tree. At each node it compares the node with the sentinel, then asks the
method `Is(error) bool` of the node when there is one, then follows `Unwrap() error` or
descends into every branch of `Unwrap() []error`. -/
def IsNotFound : GoError → Bool
  | GoError.NotFound => true
  | GoError.errorString _ => false
  | GoError.wrapError _ err => IsNotFound err
  | GoError.joinError errs => anyIsNotFound errs
  | GoError.customError _ answers => answers
  | GoError.customWrap _ answers err => answers || IsNotFound err
  | GoError.customJoin _ answers errs => answers || anyIsNotFound errs
/-- The loop of `errors.Is` over the branches of a joined error. -/
def anyIsNotFound : List GoError → Bool
  | [] => false
  | e :: es => IsNotFound e || anyIsNotFound es
end

end errors

namespace fmt

/-- The call `fmt.Errorf(lead + "%w", err)` for a format that is a fixed text followed
by one `%w` verb: the message is the text followed by the message of the cause, and the
cause is kept for `Unwrap`. -/
def Errorf (lead : String) (err : GoError) : GoError :=
  GoError.wrapError (lead ++ err.Error) err

end fmt

/-- The error `target` is reachable from `err` by repeated `errors.Unwrap`. -/
def unwrapsTo : Nat → GoError → GoError → Prop
  | 0, err, target => err = target
  | n + 1, err, target =>
    match errors.Unwrap err with
    | some cause => unwrapsTo n cause target
    | none => False

/-- The sentinel `ethereum.NotFound` is the error itself or sits anywhere inside it:
under a wrapping or in a branch of a joined error, of `fmt` and `errors` or of a type
declared elsewhere. -/
inductive HoldsNotFound : GoError → Prop
  | self : HoldsNotFound GoError.NotFound
  | wrapped (msg : String) (err : GoError) :
      HoldsNotFound err → HoldsNotFound (GoError.wrapError msg err)
  | joined (errs : List GoError) (e : GoError) :
      e ∈ errs → HoldsNotFound e → HoldsNotFound (GoError.joinError errs)
  | customWrapped (msg : String) (answers : Bool) (err : GoError) :
      HoldsNotFound err → HoldsNotFound (GoError.customWrap msg answers err)
  | customJoined (msg : String) (answers : Bool) (errs : List GoError) (e : GoError) :
      e ∈ errs → HoldsNotFound e → HoldsNotFound (GoError.customJoin msg answers errs)

/-- The error matches `ethereum.NotFound` in the sense of `errors.Is`: somewhere on the
way down the error tree there is the sentinel itself or an error whose method
`Is(error) bool` accepts the sentinel. -/
inductive MatchesNotFound : GoError → Prop
  | self : MatchesNotFound GoError.NotFound
  | wrapped (msg : String) (err : GoError) :
      MatchesNotFound err → MatchesNotFound (GoError.wrapError msg err)
  | joined (errs : List GoError) (e : GoError) :
      e ∈ errs → MatchesNotFound e → MatchesNotFound (GoError.joinError errs)
  | accepts (msg : String) : MatchesNotFound (GoError.customError msg true)
  | wrapAccepts (msg : String) (err : GoError) :
      MatchesNotFound (GoError.customWrap msg true err)
  | joinAccepts (msg : String) (errs : List GoError) :
      MatchesNotFound (GoError.customJoin msg true errs)
  | customWrapped (msg : String) (answers : Bool) (err : GoError) :
      MatchesNotFound err → MatchesNotFound (GoError.customWrap msg answers err)
  | customJoined (msg : String) (answers : Bool) (errs : List GoError) (e : GoError) :
      e ∈ errs → MatchesNotFound e → MatchesNotFound (GoError.customJoin msg answers errs)

/-! ## Time and the listener -/

/-- One call of `OnL1Call`: the two arguments the listener received. -/
structure CallObservation where
  method : String
  took : Int
  deriving DecidableEq, Repr

/-- Modelled from the spec: the interface `EventListener` is declared outside this file;
here it is the capability `OnL1Call(callName, duration)` of the instrumentation hook, a
method without result that acts on the state `σ` of the implementation. -/
structure EventListener (σ : Type) where
  OnL1Call : String → Int → σ → σ

/-- Modelled from the spec: the listener `SelectiveListener{}` is declared outside this
file; its zero value is the default hook, which does nothing. -/
def SelectiveListener (σ : Type) : EventListener σ :=
  ⟨fun _ _ st => st⟩

/-- What surrounds a method call: `clock k` is the monotonic reading, in nanoseconds,
that the `k`-th call of `time.Now` returns and `reads` counts the calls made so far;
`hook` is the state of the listener; `calls` logs the invocations of `OnL1Call` in
order. -/
structure Runtime (σ : Type) where
  clock : Nat → Int
  reads : Nat
  hook : σ
  calls : List CallObservation

namespace time

/-- The call `time.Now()`: the next reading of the clock. -/
def Now {σ : Type} (w : Runtime σ) : Int × Runtime σ :=
  (w.clock w.reads, { w with reads := w.reads + 1 })

/-- The call `time.Since(t)`, that is `time.Now().Sub(t)` on monotonic readings. -/
def Since {σ : Type} (t : Int) (w : Runtime σ) : Int × Runtime σ :=
  ((Now w).1 - t, (Now w).2)

/-- The constant `time.Minute`, in nanoseconds. -/
def Minute : Int := 60 * 1000000000

end time

/-- The statement `listener.OnL1Call(method, took)`: the listener runs on its own state
and the invocation is logged. -/
def EventListener.call {σ : Type} (l : EventListener σ) (method : String) (took : Int)
    (w : Runtime σ) : Runtime σ :=
  { w with hook := l.OnL1Call method took w.hook
           calls := w.calls ++ [⟨method, took⟩] }

/-! ## The libraries -/

namespace context

/-- A value of `context.Context`: the background context, a context derived from a
parent by `context.WithTimeout`, or a context of the caller. -/
inductive Context where
  | Background : Context
  | WithTimeout (parent : Context) (timeout : Int) : Context
  | caller (id : Nat) : Context
  deriving DecidableEq, Repr

end context

namespace common

/-- A value of `common.Address`. -/
structure Address where
  bytes : List Nat
  deriving DecidableEq, Repr

/-- A value of `common.Hash`. -/
structure Hash where
  bytes : List Nat
  deriving DecidableEq, Repr

end common

namespace types

/-- A block header `types.Header`: the field `Number`, a `*big.Int` that may be nil. -/
structure Header where
  Number : Option Int
  deriving DecidableEq, Repr

/-- A transaction receipt `types.Receipt`; the code hands it on without reading it. -/
structure Receipt where
  Status : Nat
  TxHash : common.Hash
  BlockNumber : Int
  deriving DecidableEq, Repr

end types

namespace rpc

/-- The constant `rpc.FinalizedBlockNumber` of go-ethereum, the tag of the finalized
block. -/
def FinalizedBlockNumber : Int := -3

/-- A value of `*rpc.Client`, the dialed connection. -/
structure Client where
  id : Nat
  deriving DecidableEq, Repr

end rpc

namespace big

/-- The method `(*big.Int).Uint64`: the low 64 bits of the absolute value. -/
def Uint64 (x : Int) : Nat := x.natAbs % 2 ^ 64

end big

namespace ethclient

/-- A value of `*ethclient.Client`: what the endpoint answers to each of the four
queries the file makes. -/
structure Client where
  ChainID : context.Context → Option Int × Option GoError
  HeaderByNumber : context.Context → Option Int → Option types.Header × Option GoError
  BlockNumber : context.Context → Nat × Option GoError
  TransactionReceipt : context.Context → common.Hash →
    Option types.Receipt × Option GoError

end ethclient

namespace bind

/-- The options `bind.WatchOpts`: the optional start block and the context. -/
structure WatchOpts where
  Start : Option Nat
  Context : context.Context
  deriving DecidableEq, Repr

end bind

namespace event

/-- A value of `event.Subscription`, the handle of a live subscription. -/
structure Subscription where
  id : Nat
  deriving DecidableEq, Repr

end event

namespace contract

/-- A channel `chan<- *contract.StarknetLogStateUpdate`. -/
structure Sink where
  id : Nat
  deriving DecidableEq, Repr

/-- A value of `*contract.StarknetFilterer`: its method `WatchLogStateUpdate`, which
acts on the state `φ` of the filterer (the subscriptions installed so far). -/
structure StarknetFilterer (φ : Type) where
  WatchLogStateUpdate : bind.WatchOpts → Sink → φ →
    (Option event.Subscription × Option GoError) × φ

end contract

/-- The package variable `finalizedBlockNumber`. -/
def finalizedBlockNumber : Int := rpc.FinalizedBlockNumber

/-! ## The transport adapter -/

namespace http

/-- A non-nil header map `http.Header`: the values stored under each key, if any. -/
abbrev Header := String → Option (List String)

/-- The method `Header.Set(key, value)` for a key already in canonical MIME form, as
`Origin`, `Referer` and `User-Agent` are: the entry of the key becomes the one-element
slice holding the value. -/
def Header.Set (h : Header) (key value : String) : Header :=
  fun k => if k = key then some [value] else h k

/-- A request `http.Request`, with the header map `http.Client` always allocates. -/
structure Request where
  Method : String
  URL : String
  Header : Header
  Body : List Nat

/-- A response `http.Response`. -/
structure Response where
  StatusCode : Nat
  Body : List Nat
  deriving DecidableEq, Repr

/-- A value of the interface `http.RoundTripper`, acting on the state `τ` of the
network behind it. -/
structure RoundTripper (τ : Type) where
  RoundTrip : Request → τ → (Option Response × Option GoError) × τ

/-- A value of `http.Client`: its field `Transport`. -/
structure Client (τ : Type) where
  Transport : RoundTripper τ

end http

/-- The type `uniswapHeaderTransport`: the wrapped transport. -/
structure uniswapHeaderTransport (τ : Type) where
  transport : http.RoundTripper τ

/-- The three `req.Header.Set` statements of `uniswapHeaderTransport.RoundTrip`: the
request as it stands when the wrapped transport is called. -/
def uniswapHeaderTransport.setHeaders (req : http.Request) : http.Request :=
  let h1 := req.Header.Set "Origin" "https://app.uniswap.org"
  let h2 := h1.Set "Referer" "https://app.uniswap.org/"
  let h3 := h2.Set "User-Agent" "Mozilla/5.0 (X11; Linux x86_64) AppleWebKit/537.36 (KHTML, like Gecko) Chrome/141.0.0.0 Safari/537.36"
  { req with Header := h3 }

/-- The method `uniswapHeaderTransport.RoundTrip`. -/
def uniswapHeaderTransport.RoundTrip {τ : Type} (t : uniswapHeaderTransport τ)
    (req : http.Request) (net : τ) : (Option http.Response × Option GoError) × τ :=
  t.transport.RoundTrip (uniswapHeaderTransport.setHeaders req) net

/-- The transport adapter as a value of `http.RoundTripper`. -/
def uniswapHeaderTransport.toRoundTripper {τ : Type} (t : uniswapHeaderTransport τ) :
    http.RoundTripper τ :=
  ⟨t.RoundTrip⟩

/-- A transport that counts the calls it receives and remembers the requests, on top of
the transport `inner`. -/
def countingTransport {τ : Type} (inner : http.RoundTripper τ) :
    http.RoundTripper (List http.Request × τ) :=
  ⟨fun req st => ((inner.RoundTrip req st.2).1, (st.1 ++ [req], (inner.RoundTrip req st.2).2))⟩

/-! ## The subscriber -/

/-- The type `EthSubscriber`. -/
structure EthSubscriber (σ φ : Type) where
  ethClient : ethclient.Client
  client : rpc.Client
  filterer : contract.StarknetFilterer φ
  listener : EventListener σ

/-- The functions of other packages that `NewEthSubscriber` calls: `http.DefaultTransport`,
`rpc.DialOptions` with the option `rpc.WithHTTPClient`, `ethclient.NewClient` and
`contract.NewStarknetFilterer`. A pointer these functions return is carried as it is. -/
structure Packages (τ φ : Type) where
  DefaultTransport : http.RoundTripper τ
  DialOptions : context.Context → String → http.Client τ → rpc.Client × Option GoError
  NewClient : rpc.Client → ethclient.Client
  NewStarknetFilterer : common.Address → ethclient.Client →
    contract.StarknetFilterer φ × Option GoError

/-- The function `NewEthSubscriber`; a nil `*EthSubscriber` is `none`. -/
def NewEthSubscriber {σ τ φ : Type} (P : Packages τ φ) (ethClientAddress : String)
    (coreContractAddress : common.Address) :
    Option (EthSubscriber σ φ) × Option GoError :=
  let ctx := context.Context.WithTimeout context.Context.Background time.Minute
  let httpClient : http.Client τ :=
    ⟨(uniswapHeaderTransport.mk P.DefaultTransport).toRoundTripper⟩
  match P.DialOptions ctx ethClientAddress httpClient with
  | (_, some err) => (none, some err)
  | (client, none) =>
    let ethClient := P.NewClient client
    match P.NewStarknetFilterer coreContractAddress ethClient with
    | (_, some err) => (none, some err)
    | (filterer, none) =>
      (some { ethClient := ethClient, client := client, filterer := filterer,
              listener := SelectiveListener σ }, none)

namespace EthSubscriber

variable {σ φ : Type}

/-- The method `EthSubscriber.WatchLogStateUpdate`. -/
def WatchLogStateUpdate (s : EthSubscriber σ φ) (ctx : context.Context)
    (sink : contract.Sink) (fs : φ) : (Option event.Subscription × Option GoError) × φ :=
  s.filterer.WatchLogStateUpdate { Start := none, Context := ctx } sink fs

/-- The method `EthSubscriber.ChainID`; a nil `*big.Int` is `none`. -/
def ChainID (s : EthSubscriber σ φ) (ctx : context.Context) (w : Runtime σ) :
    (Option Int × Option GoError) × Runtime σ :=
  let reqTimer := time.Now w
  match s.ethClient.ChainID ctx with
  | (_, some err) => ((none, some (fmt.Errorf "get chain ID: " err)), reqTimer.2)
  | (chainID, none) =>
    let took := time.Since reqTimer.1 reqTimer.2
    ((chainID, none), s.listener.call "eth_chainId" took.1 took.2)

/-- The method `EthSubscriber.FinalisedHeight`; the result is `none` when the Go code
stops on a nil dereference in `head.Number.Uint64()`. -/
def FinalisedHeight (s : EthSubscriber σ φ) (ctx : context.Context) (w : Runtime σ) :
    Option ((Nat × Option GoError) × Runtime σ) :=
  let reqTimer := time.Now w
  match s.ethClient.HeaderByNumber ctx (some finalizedBlockNumber) with
  | (_, some err) =>
    if errors.IsNotFound err then
      let took := time.Since reqTimer.1 reqTimer.2
      some ((0, some (errors.New "finalised block not found")),
        s.listener.call "eth_getBlockByNumber" took.1 took.2)
    else
      some ((0, some (fmt.Errorf "get finalised Ethereum block: " err)), reqTimer.2)
  | (head, none) =>
    let took := time.Since reqTimer.1 reqTimer.2
    let w2 := s.listener.call "eth_getBlockByNumber" took.1 took.2
    match head with
    | some ⟨some number⟩ => some ((big.Uint64 number, none), w2)
    | _ => none

/-- The method `EthSubscriber.LatestHeight`. -/
def LatestHeight (s : EthSubscriber σ φ) (ctx : context.Context) (w : Runtime σ) :
    (Nat × Option GoError) × Runtime σ :=
  let reqTimer := time.Now w
  match s.ethClient.BlockNumber ctx with
  | (_, some err) =>
    ((0, some (fmt.Errorf "get latest Ethereum block number: " err)), reqTimer.2)
  | (height, none) =>
    let took := time.Since reqTimer.1 reqTimer.2
    ((height, none), s.listener.call "eth_blockNumber" took.1 took.2)

/-- The method `EthSubscriber.TransactionReceipt`; a nil `*types.Receipt` is `none`. -/
def TransactionReceipt (s : EthSubscriber σ φ) (ctx : context.Context)
    (txHash : common.Hash) (w : Runtime σ) :
    (Option types.Receipt × Option GoError) × Runtime σ :=
  let reqTimer := time.Now w
  match s.ethClient.TransactionReceipt ctx txHash with
  | (_, some err) =>
    ((none, some (fmt.Errorf "get eth Transaction Receipt: " err)), reqTimer.2)
  | (receipt, none) =>
    let took := time.Since reqTimer.1 reqTimer.2
    ((receipt, none), s.listener.call "eth_getTransactionReceipt" took.1 took.2)

end EthSubscriber

/-! ## Sample values -/

/-- An endpoint that gives the same four answers whatever it is asked. -/
def sampleEndpoint (chain : Option Int × Option GoError)
    (header : Option types.Header × Option GoError) (block : Nat × Option GoError)
    (receipt : Option types.Receipt × Option GoError) : ethclient.Client :=
  ⟨fun _ => chain, fun _ _ => header, fun _ => block, fun _ _ => receipt⟩

/-- A filterer that remembers the options and the sink of every subscription and
numbers the handles it gives out. -/
def sampleFilterer : contract.StarknetFilterer (List (bind.WatchOpts × contract.Sink)) :=
  ⟨fun opts sink log => ((some ⟨log.length⟩, none), log ++ [(opts, sink)])⟩

/-- A listener that counts the calls it receives. -/
def countingListener : EventListener Nat :=
  ⟨fun _ _ n => n + 1⟩

/-- A subscriber on the endpoint `ec`, with the counting listener. -/
def sampleSubscriber (ec : ethclient.Client) :
    EthSubscriber Nat (List (bind.WatchOpts × contract.Sink)) :=
  ⟨ec, ⟨1⟩, sampleFilterer, countingListener⟩

/-- A runtime whose clock advances by 1000 ns at each reading. -/
def sampleRuntime : Runtime Nat :=
  ⟨fun k => 1000 * (k : Int), 0, 0, []⟩

/-- A receipt. -/
def sampleReceipt : types.Receipt :=
  ⟨1, ⟨[171, 205]⟩, 50⟩

/-- An endpoint with finalized block 100, latest block 105, chain 1 and a receipt. -/
def healthyEndpoint : ethclient.Client :=
  sampleEndpoint (some 1, none) (some ⟨some 100⟩, none) (105, none)
    (some sampleReceipt, none)

/-- An endpoint without a finalized block or a mined transaction: both lookups answer
with the sentinel wrapped once, the other two queries fail on the network. -/
def emptyEndpoint : ethclient.Client :=
  sampleEndpoint (none, some (GoError.errorString "connection refused"))
    (none, some (GoError.wrapError "header: not found" GoError.NotFound))
    (0, some (GoError.errorString "connection refused"))
    (none, some GoError.NotFound)

/-- An endpoint whose header lookup fails with an error of a type of the provider: the
error is not the sentinel and wraps nothing, and its `Is` method accepts the sentinel. -/
def providerEndpoint : ethclient.Client :=
  sampleEndpoint (some 1, none)
    (none, some (GoError.customError "provider: unknown block" true)) (105, none)
    (none, some (GoError.customError "provider: unknown transaction" true))

/-- An endpoint all of whose queries fail on the network. -/
def brokenEndpoint : ethclient.Client :=
  sampleEndpoint (none, some (GoError.errorString "connection refused"))
    (none, some (GoError.errorString "connection refused"))
    (0, some (GoError.errorString "connection refused"))
    (none, some (GoError.errorString "connection refused"))

/-- A transport that answers every request with status 200 and an empty body. -/
def sampleTransport : http.RoundTripper Unit :=
  ⟨fun _ net => ((some ⟨200, []⟩, none), net)⟩

/-- Packages whose dial fails on the empty address and whose filterer binding fails on
the empty contract address. -/
def samplePackages : Packages Unit (List (bind.WatchOpts × contract.Sink)) where
  DefaultTransport := sampleTransport
  DialOptions := fun _ url _ =>
    if url = "" then (⟨0⟩, some (GoError.errorString "dial: no address")) else (⟨7⟩, none)
  NewClient := fun _ => healthyEndpoint
  NewStarknetFilterer := fun addr _ =>
    if addr.bytes = [] then (sampleFilterer, some (GoError.errorString "no contract code"))
    else (sampleFilterer, none)

/-- A request with an `Origin` and an `Accept` header of the caller. -/
def sampleRequest : http.Request :=
  ⟨"POST", "https://mainnet.example/v3",
    fun k => if k = "Origin" then some ["https://caller.example", "https://other.example"]
      else if k = "Accept" then some ["application/json"] else none,
    [123, 125]⟩

/-! ## Lemmas on the methods -/

/-- The duration a method measures: the second reading minus the first. -/
def Runtime.took {σ : Type} (w : Runtime σ) : Int :=
  w.clock (w.reads + 1) - w.clock w.reads

/-- The runtime after a method has read the clock twice and called the listener once. -/
def Runtime.afterCall {σ : Type} (w : Runtime σ) (l : EventListener σ) (method : String) :
    Runtime σ :=
  ⟨w.clock, w.reads + 2, l.OnL1Call method w.took w.hook, w.calls ++ [⟨method, w.took⟩]⟩

/-- The runtime after a method has read the clock once and returned early. -/
def Runtime.afterEarlyReturn {σ : Type} (w : Runtime σ) : Runtime σ :=
  ⟨w.clock, w.reads + 1, w.hook, w.calls⟩

/-- Exactly one call of `OnL1Call` happened between the runtimes `before` and `after`. -/
def reportsOne {σ : Type} (before after : Runtime σ) : Prop :=
  ∃ obs : CallObservation, after.calls = before.calls ++ [obs]

/-- No call of `OnL1Call` happened between the runtimes `before` and `after`. -/
def reportsNone {σ : Type} (before after : Runtime σ) : Prop :=
  after.calls = before.calls

section Lemmas

variable {σ φ : Type}

mutual
theorem IsNotFound_sound :
    ∀ e : GoError, errors.IsNotFound e = true → MatchesNotFound e
  | GoError.NotFound, _ => MatchesNotFound.self
  | GoError.errorString _, h => by simp [errors.IsNotFound] at h
  | GoError.wrapError msg err, h =>
    MatchesNotFound.wrapped msg err
      (IsNotFound_sound err (by simpa [errors.IsNotFound] using h))
  | GoError.joinError errs, h => by
    obtain ⟨e, he, hh⟩ :=
      anyIsNotFound_sound errs (by simpa [errors.IsNotFound] using h)
    exact MatchesNotFound.joined errs e he hh
  | GoError.customError msg answers, h => by
    simp only [errors.IsNotFound] at h
    subst h
    exact MatchesNotFound.accepts msg
  | GoError.customWrap msg answers err, h => by
    simp only [errors.IsNotFound, Bool.or_eq_true] at h
    rcases h with h | h
    · subst h
      exact MatchesNotFound.wrapAccepts msg err
    · exact MatchesNotFound.customWrapped msg answers err (IsNotFound_sound err h)
  | GoError.customJoin msg answers errs, h => by
    simp only [errors.IsNotFound, Bool.or_eq_true] at h
    rcases h with h | h
    · subst h
      exact MatchesNotFound.joinAccepts msg errs
    · obtain ⟨e, he, hh⟩ := anyIsNotFound_sound errs h
      exact MatchesNotFound.customJoined msg answers errs e he hh
theorem anyIsNotFound_sound :
    ∀ es : List GoError, errors.anyIsNotFound es = true → ∃ e ∈ es, MatchesNotFound e
  | [], h => by simp [errors.anyIsNotFound] at h
  | e :: es, h => by
    simp only [errors.anyIsNotFound, Bool.or_eq_true] at h
    rcases h with h | h
    · exact ⟨e, List.mem_cons_self e es, IsNotFound_sound e h⟩
    · obtain ⟨x, hx, hh⟩ := anyIsNotFound_sound es h
      exact ⟨x, List.mem_cons_of_mem e hx, hh⟩
end

theorem anyIsNotFound_of_mem (e : GoError) (he : errors.IsNotFound e = true) :
    ∀ es : List GoError, e ∈ es → errors.anyIsNotFound es = true
  | [], h => by simp at h
  | x :: xs, h => by
    simp only [errors.anyIsNotFound, Bool.or_eq_true]
    rcases List.mem_cons.mp h with h | h
    · left; rw [← h]; exact he
    · right; exact anyIsNotFound_of_mem e he xs h

theorem IsNotFound_complete (e : GoError) (h : MatchesNotFound e) :
    errors.IsNotFound e = true := by
  induction h with
  | self => simp [errors.IsNotFound]
  | wrapped msg err _ ih => simpa [errors.IsNotFound] using ih
  | joined errs e he _ ih =>
    simpa [errors.IsNotFound] using anyIsNotFound_of_mem e ih errs he
  | accepts msg => simp [errors.IsNotFound]
  | wrapAccepts msg err => simp [errors.IsNotFound]
  | joinAccepts msg errs => simp [errors.IsNotFound]
  | customWrapped msg answers err _ ih => simp [errors.IsNotFound, ih]
  | customJoined msg answers errs e he _ ih =>
    simp [errors.IsNotFound, anyIsNotFound_of_mem e ih errs he]

theorem IsNotFound_iff (e : GoError) : errors.IsNotFound e = true ↔ MatchesNotFound e :=
  ⟨IsNotFound_sound e, IsNotFound_complete e⟩

theorem MatchesNotFound_of_holds (e : GoError) (h : HoldsNotFound e) :
    MatchesNotFound e := by
  induction h with
  | self => exact MatchesNotFound.self
  | wrapped msg err _ ih => exact MatchesNotFound.wrapped msg err ih
  | joined errs e he _ ih => exact MatchesNotFound.joined errs e he ih
  | customWrapped msg answers err _ ih =>
    exact MatchesNotFound.customWrapped msg answers err ih
  | customJoined msg answers errs e he _ ih =>
    exact MatchesNotFound.customJoined msg answers errs e he ih

theorem IsNotFound_of_holds (e : GoError) (h : HoldsNotFound e) :
    errors.IsNotFound e = true :=
  IsNotFound_complete e (MatchesNotFound_of_holds e h)

theorem IsNotFound_false_of_not_matches (e : GoError) (h : ¬ MatchesNotFound e) :
    errors.IsNotFound e = false := by
  cases hb : errors.IsNotFound e
  · rfl
  · exact absurd ((IsNotFound_iff e).mp hb) h

theorem not_unwrapsTo_errorString (text : String) (target : GoError)
    (h : target ≠ GoError.errorString text) (n : Nat) :
    ¬ unwrapsTo n (GoError.errorString text) target := by
  cases n with
  | zero => intro hh; exact h hh.symm
  | succ k => simp [unwrapsTo, errors.Unwrap]

theorem ChainID_ok (s : EthSubscriber σ φ) (ctx : context.Context) (w : Runtime σ)
    (v : Option Int) (h : s.ethClient.ChainID ctx = (v, none)) :
    s.ChainID ctx w = ((v, none), w.afterCall s.listener "eth_chainId") := by
  simp [EthSubscriber.ChainID, h, time.Now, time.Since, EventListener.call,
    Runtime.afterCall, Runtime.took]

theorem ChainID_err (s : EthSubscriber σ φ) (ctx : context.Context) (w : Runtime σ)
    (v : Option Int) (e : GoError) (h : s.ethClient.ChainID ctx = (v, some e)) :
    s.ChainID ctx w = ((none, some (fmt.Errorf "get chain ID: " e)), w.afterEarlyReturn) := by
  simp [EthSubscriber.ChainID, h, time.Now, Runtime.afterEarlyReturn]

theorem LatestHeight_ok (s : EthSubscriber σ φ) (ctx : context.Context) (w : Runtime σ)
    (v : Nat) (h : s.ethClient.BlockNumber ctx = (v, none)) :
    s.LatestHeight ctx w = ((v, none), w.afterCall s.listener "eth_blockNumber") := by
  simp [EthSubscriber.LatestHeight, h, time.Now, time.Since, EventListener.call,
    Runtime.afterCall, Runtime.took]

theorem LatestHeight_err (s : EthSubscriber σ φ) (ctx : context.Context) (w : Runtime σ)
    (v : Nat) (e : GoError) (h : s.ethClient.BlockNumber ctx = (v, some e)) :
    s.LatestHeight ctx w =
      ((0, some (fmt.Errorf "get latest Ethereum block number: " e)),
        w.afterEarlyReturn) := by
  simp [EthSubscriber.LatestHeight, h, time.Now, Runtime.afterEarlyReturn]

theorem TransactionReceipt_ok (s : EthSubscriber σ φ) (ctx : context.Context)
    (txHash : common.Hash) (w : Runtime σ) (v : Option types.Receipt)
    (h : s.ethClient.TransactionReceipt ctx txHash = (v, none)) :
    s.TransactionReceipt ctx txHash w =
      ((v, none), w.afterCall s.listener "eth_getTransactionReceipt") := by
  simp [EthSubscriber.TransactionReceipt, h, time.Now, time.Since, EventListener.call,
    Runtime.afterCall, Runtime.took]

theorem TransactionReceipt_err (s : EthSubscriber σ φ) (ctx : context.Context)
    (txHash : common.Hash) (w : Runtime σ) (v : Option types.Receipt) (e : GoError)
    (h : s.ethClient.TransactionReceipt ctx txHash = (v, some e)) :
    s.TransactionReceipt ctx txHash w =
      ((none, some (fmt.Errorf "get eth Transaction Receipt: " e)),
        w.afterEarlyReturn) := by
  simp [EthSubscriber.TransactionReceipt, h, time.Now, Runtime.afterEarlyReturn]

theorem FinalisedHeight_notFound (s : EthSubscriber σ φ) (ctx : context.Context)
    (w : Runtime σ) (head : Option types.Header) (e : GoError)
    (h : s.ethClient.HeaderByNumber ctx (some finalizedBlockNumber) = (head, some e))
    (hnf : errors.IsNotFound e = true) :
    s.FinalisedHeight ctx w =
      some ((0, some (errors.New "finalised block not found")),
        w.afterCall s.listener "eth_getBlockByNumber") := by
  simp [EthSubscriber.FinalisedHeight, h, hnf, time.Now, time.Since, EventListener.call,
    Runtime.afterCall, Runtime.took]

theorem FinalisedHeight_err (s : EthSubscriber σ φ) (ctx : context.Context)
    (w : Runtime σ) (head : Option types.Header) (e : GoError)
    (h : s.ethClient.HeaderByNumber ctx (some finalizedBlockNumber) = (head, some e))
    (hnf : errors.IsNotFound e = false) :
    s.FinalisedHeight ctx w =
      some ((0, some (fmt.Errorf "get finalised Ethereum block: " e)),
        w.afterEarlyReturn) := by
  simp [EthSubscriber.FinalisedHeight, h, hnf, time.Now, Runtime.afterEarlyReturn]

theorem FinalisedHeight_ok (s : EthSubscriber σ φ) (ctx : context.Context)
    (w : Runtime σ) (number : Int)
    (h : s.ethClient.HeaderByNumber ctx (some finalizedBlockNumber) =
      (some ⟨some number⟩, none)) :
    s.FinalisedHeight ctx w =
      some ((big.Uint64 number, none), w.afterCall s.listener "eth_getBlockByNumber") := by
  simp [EthSubscriber.FinalisedHeight, h, time.Now, time.Since, EventListener.call,
    Runtime.afterCall, Runtime.took]

theorem FinalisedHeight_nil_head (s : EthSubscriber σ φ) (ctx : context.Context)
    (w : Runtime σ)
    (h : s.ethClient.HeaderByNumber ctx (some finalizedBlockNumber) = (none, none)) :
    s.FinalisedHeight ctx w = none := by
  simp [EthSubscriber.FinalisedHeight, h]

theorem FinalisedHeight_nil_number (s : EthSubscriber σ φ) (ctx : context.Context)
    (w : Runtime σ)
    (h : s.ethClient.HeaderByNumber ctx (some finalizedBlockNumber) =
      (some ⟨none⟩, none)) :
    s.FinalisedHeight ctx w = none := by
  simp [EthSubscriber.FinalisedHeight, h]

theorem Uint64_of_fits (n : Int) (h0 : 0 ≤ n) (h1 : n < 2 ^ 64) :
    big.Uint64 n = n.toNat := by
  unfold big.Uint64
  have h2 : n.natAbs = n.toNat := by omega
  rw [h2]
  apply Nat.mod_eq_of_lt
  omega

theorem reportsOne_afterCall (w : Runtime σ) (l : EventListener σ) (method : String) :
    reportsOne w (w.afterCall l method) :=
  ⟨⟨method, w.took⟩, rfl⟩

theorem reportsNone_afterEarlyReturn (w : Runtime σ) :
    reportsNone w w.afterEarlyReturn :=
  rfl

theorem not_reportsOne_of_reportsNone (w w2 : Runtime σ) (h : reportsNone w w2) :
    ¬ reportsOne w w2 := by
  rintro ⟨obs, hobs⟩
  rw [h] at hobs
  have hlen := congrArg List.length hobs
  simp at hlen

theorem NewEthSubscriber_cases {τ : Type} (P : Packages τ φ)
    (ethClientAddress : String) (coreContractAddress : common.Address)
    (client : rpc.Client) (dialErr : Option GoError)
    (filterer : contract.StarknetFilterer φ) (bindErr : Option GoError)
    (hdial : P.DialOptions
        (context.Context.WithTimeout context.Context.Background time.Minute)
        ethClientAddress ⟨(uniswapHeaderTransport.mk P.DefaultTransport).toRoundTripper⟩ =
      (client, dialErr))
    (hbind : P.NewStarknetFilterer coreContractAddress (P.NewClient client) =
      (filterer, bindErr)) :
    (NewEthSubscriber P ethClientAddress coreContractAddress :
        Option (EthSubscriber σ φ) × Option GoError) =
      match dialErr, bindErr with
      | some e, _ => (none, some e)
      | none, some e => (none, some e)
      | none, none =>
        (some ⟨P.NewClient client, client, filterer, SelectiveListener σ⟩, none) := by
  rcases dialErr with _ | de
  · rcases bindErr with _ | be
    · simp [NewEthSubscriber, hdial, hbind]
    · simp [NewEthSubscriber, hdial, hbind]
  · simp [NewEthSubscriber, hdial]

end Lemmas

/-! ## The finality query -/

section Finality

variable {σ φ : Type}

/-- Claim C1: `FinalisedHeight` is decided by the answer of the endpoint to the header
query at the finalized tag. When that answer is an error whose chain holds
`ethereum.NotFound`, the call returns height 0 and the error "finalised block not found",
which is not the wrapped error "get finalised Ethereum block: ..."; when it is a header
whose number `n` fits in 64 bits, the call returns `n` and no error. -/
theorem FinalisedHeight_at_finalized_tag (s : EthSubscriber σ φ) (ctx : context.Context)
    (w : Runtime σ) (head : Option types.Header) (err : Option GoError)
    (h : s.ethClient.HeaderByNumber ctx (some rpc.FinalizedBlockNumber) = (head, err)) :
    (∀ e : GoError, err = some e → HoldsNotFound e →
      (s.FinalisedHeight ctx w).map Prod.fst =
          some (0, some (errors.New "finalised block not found")) ∧
        (errors.New "finalised block not found").Error = "finalised block not found" ∧
        errors.New "finalised block not found" ≠
          fmt.Errorf "get finalised Ethereum block: " e) ∧
    (∀ n : Nat, n < 2 ^ 64 → head = some ⟨some (n : Int)⟩ → err = none →
      (s.FinalisedHeight ctx w).map Prod.fst = some (n, none)) := by
  refine ⟨?_, ?_⟩
  · intro e he hnf
    subst he
    rw [FinalisedHeight_notFound s ctx w head e h (IsNotFound_of_holds e hnf)]
    refine ⟨rfl, rfl, ?_⟩
    simp [errors.New, fmt.Errorf]
  · intro n hn hhead herr
    subst hhead herr
    rw [FinalisedHeight_ok s ctx w (n : Int) h]
    have hfit : big.Uint64 (n : Int) = n := by
      rw [Uint64_of_fits (n : Int) (by omega) (by exact_mod_cast hn)]
      simp
    simp [hfit]

/-- Claim C1, on an endpoint without a finalized block and on an endpoint whose
finalized header is 100. -/
theorem FinalisedHeight_at_finalized_tag_witness :
    ((sampleSubscriber emptyEndpoint).FinalisedHeight (context.Context.caller 0)
        sampleRuntime).map Prod.fst =
      some (0, some (errors.New "finalised block not found")) ∧
    ((sampleSubscriber healthyEndpoint).FinalisedHeight (context.Context.caller 0)
        sampleRuntime).map Prod.fst = some (100, none) :=
  ⟨((FinalisedHeight_at_finalized_tag (sampleSubscriber emptyEndpoint)
      (context.Context.caller 0) sampleRuntime none
      (some (GoError.wrapError "header: not found" GoError.NotFound)) rfl).1
      (GoError.wrapError "header: not found" GoError.NotFound) rfl
      (HoldsNotFound.wrapped "header: not found" GoError.NotFound HoldsNotFound.self)).1,
   (FinalisedHeight_at_finalized_tag (sampleSubscriber healthyEndpoint)
      (context.Context.caller 0) sampleRuntime (some ⟨some 100⟩) none rfl).2
      100 (by norm_num) rfl rfl⟩

end Finality

/-! ## Observations -/

section Observations

variable {σ φ : Type}

/-- Claim C2, refuted as stated: on an endpoint whose chain-id query fails, `ChainID`
returns an error and no call of `OnL1Call` has happened, so the invocation does not
report exactly one observation. -/
theorem ChainID_failure_reports_nothing :
    ((sampleSubscriber brokenEndpoint).ChainID (context.Context.caller 0)
        sampleRuntime).1.2 =
      some (fmt.Errorf "get chain ID: " (GoError.errorString "connection refused")) ∧
    ((sampleSubscriber brokenEndpoint).ChainID (context.Context.caller 0)
        sampleRuntime).2.calls = [] ∧
    ¬ reportsOne sampleRuntime
      ((sampleSubscriber brokenEndpoint).ChainID (context.Context.caller 0)
        sampleRuntime).2 := by
  refine ⟨rfl, rfl, ?_⟩
  exact not_reportsOne_of_reportsNone _ _ rfl

/-- Claim C2, amended: an invocation of `ChainID`, `LatestHeight` or
`TransactionReceipt` reports exactly one observation when the endpoint call succeeds and
none when it fails; an invocation of `FinalisedHeight` reports exactly one observation
when the endpoint returns a header with a number or an error that `errors.Is` matches
with `ethereum.NotFound` (the sentinel itself or wrapped anywhere inside the error, or an
error on the way whose `Is` method accepts the sentinel), and none on every other
error. -/
theorem observations_by_outcome (s : EthSubscriber σ φ) (ctx : context.Context)
    (txHash : common.Hash) (w : Runtime σ) :
    ((s.ethClient.ChainID ctx).2 = none → reportsOne w (s.ChainID ctx w).2) ∧
    ((s.ethClient.ChainID ctx).2 ≠ none → reportsNone w (s.ChainID ctx w).2) ∧
    ((s.ethClient.BlockNumber ctx).2 = none → reportsOne w (s.LatestHeight ctx w).2) ∧
    ((s.ethClient.BlockNumber ctx).2 ≠ none → reportsNone w (s.LatestHeight ctx w).2) ∧
    ((s.ethClient.TransactionReceipt ctx txHash).2 = none →
      reportsOne w (s.TransactionReceipt ctx txHash w).2) ∧
    ((s.ethClient.TransactionReceipt ctx txHash).2 ≠ none →
      reportsNone w (s.TransactionReceipt ctx txHash w).2) ∧
    (∀ number : Int,
      s.ethClient.HeaderByNumber ctx (some finalizedBlockNumber) =
          (some ⟨some number⟩, none) →
        ∃ r, s.FinalisedHeight ctx w = some r ∧ reportsOne w r.2) ∧
    (∀ (head : Option types.Header) (e : GoError),
      s.ethClient.HeaderByNumber ctx (some finalizedBlockNumber) = (head, some e) →
        MatchesNotFound e → ∃ r, s.FinalisedHeight ctx w = some r ∧ reportsOne w r.2) ∧
    (∀ (head : Option types.Header) (e : GoError),
      s.ethClient.HeaderByNumber ctx (some finalizedBlockNumber) = (head, some e) →
        ¬ MatchesNotFound e →
          ∃ r, s.FinalisedHeight ctx w = some r ∧ reportsNone w r.2) := by
  refine ⟨?_, ?_, ?_, ?_, ?_, ?_, ?_, ?_, ?_⟩
  · intro h
    rcases hr : s.ethClient.ChainID ctx with ⟨v, _ | e⟩
    · rw [ChainID_ok s ctx w v hr]; exact reportsOne_afterCall _ _ _
    · rw [hr] at h; cases h
  · intro h
    rcases hr : s.ethClient.ChainID ctx with ⟨v, _ | e⟩
    · rw [hr] at h; exact absurd rfl h
    · rw [ChainID_err s ctx w v e hr]; exact reportsNone_afterEarlyReturn _
  · intro h
    rcases hr : s.ethClient.BlockNumber ctx with ⟨v, _ | e⟩
    · rw [LatestHeight_ok s ctx w v hr]; exact reportsOne_afterCall _ _ _
    · rw [hr] at h; cases h
  · intro h
    rcases hr : s.ethClient.BlockNumber ctx with ⟨v, _ | e⟩
    · rw [hr] at h; exact absurd rfl h
    · rw [LatestHeight_err s ctx w v e hr]; exact reportsNone_afterEarlyReturn _
  · intro h
    rcases hr : s.ethClient.TransactionReceipt ctx txHash with ⟨v, _ | e⟩
    · rw [TransactionReceipt_ok s ctx txHash w v hr]; exact reportsOne_afterCall _ _ _
    · rw [hr] at h; cases h
  · intro h
    rcases hr : s.ethClient.TransactionReceipt ctx txHash with ⟨v, _ | e⟩
    · rw [hr] at h; exact absurd rfl h
    · rw [TransactionReceipt_err s ctx txHash w v e hr]
      exact reportsNone_afterEarlyReturn _
  · intro number hr
    exact ⟨_, FinalisedHeight_ok s ctx w number hr, reportsOne_afterCall _ _ _⟩
  · intro head e hr hnf
    exact ⟨_, FinalisedHeight_notFound s ctx w head e hr ((IsNotFound_iff e).mpr hnf),
      reportsOne_afterCall _ _ _⟩
  · intro head e hr hnf
    exact ⟨_, FinalisedHeight_err s ctx w head e hr (IsNotFound_false_of_not_matches e hnf),
      reportsNone_afterEarlyReturn _⟩

/-- Claim C2, amended, on four endpoints: every query on a healthy endpoint reports one
observation; `FinalisedHeight` reports one on an endpoint without a finalized block and
on an endpoint whose error accepts the sentinel by its `Is` method; every query on a
broken endpoint reports none. -/
theorem observations_by_outcome_witness :
    (reportsOne sampleRuntime
        ((sampleSubscriber healthyEndpoint).ChainID (context.Context.caller 0)
          sampleRuntime).2 ∧
      reportsOne sampleRuntime
        ((sampleSubscriber healthyEndpoint).LatestHeight (context.Context.caller 0)
          sampleRuntime).2 ∧
      reportsOne sampleRuntime
        ((sampleSubscriber healthyEndpoint).TransactionReceipt (context.Context.caller 0)
          ⟨[171, 205]⟩ sampleRuntime).2 ∧
      ∃ r, (sampleSubscriber healthyEndpoint).FinalisedHeight (context.Context.caller 0)
          sampleRuntime = some r ∧ reportsOne sampleRuntime r.2) ∧
    (∃ r, (sampleSubscriber emptyEndpoint).FinalisedHeight (context.Context.caller 0)
        sampleRuntime = some r ∧ reportsOne sampleRuntime r.2) ∧
    (∃ r, (sampleSubscriber providerEndpoint).FinalisedHeight (context.Context.caller 0)
        sampleRuntime = some r ∧ reportsOne sampleRuntime r.2) ∧
    (reportsNone sampleRuntime
        ((sampleSubscriber brokenEndpoint).ChainID (context.Context.caller 0)
          sampleRuntime).2 ∧
      reportsNone sampleRuntime
        ((sampleSubscriber brokenEndpoint).LatestHeight (context.Context.caller 0)
          sampleRuntime).2 ∧
      reportsNone sampleRuntime
        ((sampleSubscriber brokenEndpoint).TransactionReceipt (context.Context.caller 0)
          ⟨[171, 205]⟩ sampleRuntime).2 ∧
      ∃ r, (sampleSubscriber brokenEndpoint).FinalisedHeight (context.Context.caller 0)
          sampleRuntime = some r ∧ reportsNone sampleRuntime r.2) := by
  have hh := observations_by_outcome (sampleSubscriber healthyEndpoint)
    (context.Context.caller 0) ⟨[171, 205]⟩ sampleRuntime
  have he := observations_by_outcome (sampleSubscriber emptyEndpoint)
    (context.Context.caller 0) ⟨[171, 205]⟩ sampleRuntime
  have hb := observations_by_outcome (sampleSubscriber brokenEndpoint)
    (context.Context.caller 0) ⟨[171, 205]⟩ sampleRuntime
  have hp := observations_by_outcome (sampleSubscriber providerEndpoint)
    (context.Context.caller 0) ⟨[171, 205]⟩ sampleRuntime
  have hne : (some (GoError.errorString "connection refused") : Option GoError) ≠ none :=
    Option.some_ne_none _
  refine ⟨⟨hh.1 rfl, hh.2.2.1 rfl, hh.2.2.2.2.1 rfl, hh.2.2.2.2.2.2.1 100 rfl⟩,
    he.2.2.2.2.2.2.2.1 none (GoError.wrapError "header: not found" GoError.NotFound) rfl
      (MatchesNotFound.wrapped "header: not found" GoError.NotFound MatchesNotFound.self),
    hp.2.2.2.2.2.2.2.1 none (GoError.customError "provider: unknown block" true) rfl
      (MatchesNotFound.accepts "provider: unknown block"),
    ⟨hb.2.1 hne, hb.2.2.2.1 hne, hb.2.2.2.2.2.1 hne,
      hb.2.2.2.2.2.2.2.2 none (GoError.errorString "connection refused") rfl
        (by intro hnf; cases hnf)⟩⟩

/-- Claim C3: a successful call of `ChainID`, `LatestHeight`, `FinalisedHeight` or
`TransactionReceipt` adds exactly one observation to the log and runs the listener once
on it; the name of the observation is the fixed name of the method and its duration is
the clock reading after the round trip minus the reading before dispatch, which is not
negative when the clock does not decrease. -/
theorem success_reports_one_observation (s : EthSubscriber σ φ) (ctx : context.Context)
    (txHash : common.Hash) (w : Runtime σ) :
    ((s.ChainID ctx w).1.2 = none →
      (s.ChainID ctx w).2.calls =
          w.calls ++ [⟨"eth_chainId", w.clock (w.reads + 1) - w.clock w.reads⟩] ∧
        (s.ChainID ctx w).2.hook =
          s.listener.OnL1Call "eth_chainId" (w.clock (w.reads + 1) - w.clock w.reads)
            w.hook) ∧
    ((s.LatestHeight ctx w).1.2 = none →
      (s.LatestHeight ctx w).2.calls =
          w.calls ++ [⟨"eth_blockNumber", w.clock (w.reads + 1) - w.clock w.reads⟩] ∧
        (s.LatestHeight ctx w).2.hook =
          s.listener.OnL1Call "eth_blockNumber" (w.clock (w.reads + 1) - w.clock w.reads)
            w.hook) ∧
    ((s.TransactionReceipt ctx txHash w).1.2 = none →
      (s.TransactionReceipt ctx txHash w).2.calls =
          w.calls ++
            [⟨"eth_getTransactionReceipt", w.clock (w.reads + 1) - w.clock w.reads⟩] ∧
        (s.TransactionReceipt ctx txHash w).2.hook =
          s.listener.OnL1Call "eth_getTransactionReceipt"
            (w.clock (w.reads + 1) - w.clock w.reads) w.hook) ∧
    (∀ r, s.FinalisedHeight ctx w = some r → r.1.2 = none →
      r.2.calls =
          w.calls ++ [⟨"eth_getBlockByNumber", w.clock (w.reads + 1) - w.clock w.reads⟩] ∧
        r.2.hook =
          s.listener.OnL1Call "eth_getBlockByNumber"
            (w.clock (w.reads + 1) - w.clock w.reads) w.hook) ∧
    (Monotone w.clock → 0 ≤ w.clock (w.reads + 1) - w.clock w.reads) := by
  refine ⟨?_, ?_, ?_, ?_, ?_⟩
  · intro h
    rcases hr : s.ethClient.ChainID ctx with ⟨v, _ | e⟩
    · rw [ChainID_ok s ctx w v hr]; exact ⟨rfl, rfl⟩
    · rw [ChainID_err s ctx w v e hr] at h; cases h
  · intro h
    rcases hr : s.ethClient.BlockNumber ctx with ⟨v, _ | e⟩
    · rw [LatestHeight_ok s ctx w v hr]; exact ⟨rfl, rfl⟩
    · rw [LatestHeight_err s ctx w v e hr] at h; cases h
  · intro h
    rcases hr : s.ethClient.TransactionReceipt ctx txHash with ⟨v, _ | e⟩
    · rw [TransactionReceipt_ok s ctx txHash w v hr]; exact ⟨rfl, rfl⟩
    · rw [TransactionReceipt_err s ctx txHash w v e hr] at h; cases h
  · intro r hsome hnil
    rcases hr : s.ethClient.HeaderByNumber ctx (some finalizedBlockNumber) with
      ⟨head, _ | e⟩
    · rcases head with _ | ⟨_ | number⟩
      · rw [FinalisedHeight_nil_head s ctx w hr] at hsome; cases hsome
      · rw [FinalisedHeight_nil_number s ctx w hr] at hsome; cases hsome
      · rw [FinalisedHeight_ok s ctx w number hr] at hsome
        cases hsome
        exact ⟨rfl, rfl⟩
    · cases hb : errors.IsNotFound e
      · rw [FinalisedHeight_err s ctx w head e hr hb] at hsome
        cases hsome
        cases hnil
      · rw [FinalisedHeight_notFound s ctx w head e hr hb] at hsome
        cases hsome
        cases hnil
  · intro hmono
    have hle : w.clock w.reads ≤ w.clock (w.reads + 1) := hmono (Nat.le_succ _)
    omega

/-- Claim C3, on a healthy endpoint and a clock that advances by 1000 ns per reading:
each of the four queries reports one observation, with the name of the method and the
duration 1000. -/
theorem success_reports_one_observation_witness :
    ((sampleSubscriber healthyEndpoint).ChainID (context.Context.caller 0)
        sampleRuntime).2.calls = [⟨"eth_chainId", 1000⟩] ∧
    ((sampleSubscriber healthyEndpoint).LatestHeight (context.Context.caller 0)
        sampleRuntime).2.calls = [⟨"eth_blockNumber", 1000⟩] ∧
    ((sampleSubscriber healthyEndpoint).TransactionReceipt (context.Context.caller 0)
        ⟨[171, 205]⟩ sampleRuntime).2.calls = [⟨"eth_getTransactionReceipt", 1000⟩] ∧
    (∃ r, (sampleSubscriber healthyEndpoint).FinalisedHeight (context.Context.caller 0)
        sampleRuntime = some r ∧ r.1 = (100, none) ∧
      r.2.calls = [⟨"eth_getBlockByNumber", 1000⟩]) ∧
    (0 : Int) ≤ sampleRuntime.clock (sampleRuntime.reads + 1) -
      sampleRuntime.clock sampleRuntime.reads := by
  have h := success_reports_one_observation (sampleSubscriber healthyEndpoint)
    (context.Context.caller 0) ⟨[171, 205]⟩ sampleRuntime
  refine ⟨?_, ?_, ?_, ?_, h.2.2.2.2 ?_⟩
  · simpa [sampleRuntime] using (h.1 rfl).1
  · simpa [sampleRuntime] using (h.2.1 rfl).1
  · simpa [sampleRuntime] using (h.2.2.1 rfl).1
  · have hval : (sampleSubscriber healthyEndpoint).FinalisedHeight
        (context.Context.caller 0) sampleRuntime =
        some ((big.Uint64 100, none),
          sampleRuntime.afterCall (sampleSubscriber healthyEndpoint).listener
            "eth_getBlockByNumber") :=
      FinalisedHeight_ok _ _ _ 100 rfl
    refine ⟨_, hval, rfl, ?_⟩
    simpa [sampleRuntime] using (h.2.2.2.1 _ hval rfl).1
  · intro a b hab
    simp only [sampleRuntime]
    have : (a : Int) ≤ (b : Int) := by exact_mod_cast hab
    omega

end Observations

/-! ## The transport adapter -/

section Transport

variable {τ : Type}

/-- Claim C4: for every request and every wrapped transport, `RoundTrip` returns what the
wrapped transport returns on the request with the three headers set, the three headers
of that request hold the fixed values, and a wrapped transport that counts its calls has
received exactly one call, with that request. -/
theorem RoundTrip_sets_headers_and_delegates (t : uniswapHeaderTransport τ)
    (req : http.Request) (net : τ) :
    t.RoundTrip req net =
        t.transport.RoundTrip (uniswapHeaderTransport.setHeaders req) net ∧
    (uniswapHeaderTransport.setHeaders req).Header "Origin" =
        some ["https://app.uniswap.org"] ∧
    (uniswapHeaderTransport.setHeaders req).Header "Referer" =
        some ["https://app.uniswap.org/"] ∧
    (uniswapHeaderTransport.setHeaders req).Header "User-Agent" =
        some ["Mozilla/5.0 (X11; Linux x86_64) AppleWebKit/537.36 (KHTML, like Gecko) Chrome/141.0.0.0 Safari/537.36"] ∧
    ((uniswapHeaderTransport.mk (countingTransport t.transport)).RoundTrip req
        ([], net)).1 = (t.transport.RoundTrip (uniswapHeaderTransport.setHeaders req) net).1 ∧
    ((uniswapHeaderTransport.mk (countingTransport t.transport)).RoundTrip req
        ([], net)).2 =
      ([uniswapHeaderTransport.setHeaders req],
        (t.transport.RoundTrip (uniswapHeaderTransport.setHeaders req) net).2) := by
  refine ⟨rfl, ?_, ?_, ?_, rfl, rfl⟩ <;>
    simp [uniswapHeaderTransport.setHeaders, http.Header.Set]

/-- Claim C10: `RoundTrip` overwrites. The wrapped transport is called on one request
`sent`, as a transport that remembers its requests shows; in `sent` each of `Origin`,
`Referer` and `User-Agent` holds exactly one value, the fixed one, whatever the caller
had stored; every other header, the method, the URL and the body of `sent` are those of
the request of the caller; and `RoundTrip` on `sent` hands the wrapped transport `sent`
again, so that annotating twice gives the same request as annotating once. -/
theorem RoundTrip_overwrites_headers (inner : http.RoundTripper τ) (req : http.Request)
    (net : τ) :
    ∃ sent : http.Request,
      (uniswapHeaderTransport.mk inner).RoundTrip req net = inner.RoundTrip sent net ∧
      ((uniswapHeaderTransport.mk (countingTransport inner)).RoundTrip req
          ([], net)).2.1 = [sent] ∧
      (sent.Header "Origin" = some ["https://app.uniswap.org"] ∧
        sent.Header "Referer" = some ["https://app.uniswap.org/"] ∧
        sent.Header "User-Agent" =
          some ["Mozilla/5.0 (X11; Linux x86_64) AppleWebKit/537.36 (KHTML, like Gecko) Chrome/141.0.0.0 Safari/537.36"]) ∧
      (∀ key : String, key ≠ "Origin" → key ≠ "Referer" → key ≠ "User-Agent" →
        sent.Header key = req.Header key) ∧
      (sent.Method = req.Method ∧ sent.URL = req.URL ∧ sent.Body = req.Body) ∧
      (uniswapHeaderTransport.mk inner).RoundTrip sent net = inner.RoundTrip sent net ∧
      ((uniswapHeaderTransport.mk (countingTransport inner)).RoundTrip sent
          ([], net)).2.1 = [sent] := by
  have hidem : uniswapHeaderTransport.setHeaders (uniswapHeaderTransport.setHeaders req) =
      uniswapHeaderTransport.setHeaders req := by
    simp only [uniswapHeaderTransport.setHeaders, http.Header.Set]
    congr 1
    funext k
    by_cases h3 : k = "User-Agent"
    · simp [http.Header.Set, h3]
    · by_cases h2 : k = "Referer"
      · simp [http.Header.Set, h2]
      · by_cases h1 : k = "Origin"
        · simp [http.Header.Set, h1]
        · simp [http.Header.Set, h1, h2, h3]
  refine ⟨uniswapHeaderTransport.setHeaders req, rfl, rfl, ⟨?_, ?_, ?_⟩, ?_,
    ⟨rfl, rfl, rfl⟩, ?_, ?_⟩
  · simp [uniswapHeaderTransport.setHeaders, http.Header.Set]
  · simp [uniswapHeaderTransport.setHeaders, http.Header.Set]
  · simp [uniswapHeaderTransport.setHeaders, http.Header.Set]
  · intro key h1 h2 h3
    simp [uniswapHeaderTransport.setHeaders, http.Header.Set, h1, h2, h3]
  · show inner.RoundTrip
        (uniswapHeaderTransport.setHeaders (uniswapHeaderTransport.setHeaders req)) net = _
    rw [hidem]
  · show [uniswapHeaderTransport.setHeaders (uniswapHeaderTransport.setHeaders req)] = _
    rw [hidem]

/-- Claim C10, on a request whose caller had stored two `Origin` values and an `Accept`
header: the request the wrapped transport receives has the one fixed `Origin` value in
their place and the `Accept` header of the caller. -/
theorem RoundTrip_overwrites_headers_witness :
    sampleRequest.Header "Origin" =
        some ["https://caller.example", "https://other.example"] ∧
    ∃ sent : http.Request,
      ((uniswapHeaderTransport.mk (countingTransport sampleTransport)).RoundTrip
          sampleRequest ([], ())).2.1 = [sent] ∧
      sent.Header "Origin" = some ["https://app.uniswap.org"] ∧
      sent.Header "Accept" = some ["application/json"] := by
  obtain ⟨sent, _, hrec, ⟨horigin, _, _⟩, hother, _, _, _⟩ :=
    RoundTrip_overwrites_headers sampleTransport sampleRequest ()
  refine ⟨by simp [sampleRequest], sent, hrec, horigin, ?_⟩
  rw [hother "Accept" (by decide) (by decide) (by decide)]
  simp [sampleRequest]

end Transport

/-! ## Results of the queries -/

section Results

variable {σ φ : Type}

/-- Claim C5: each of `ChainID`, `LatestHeight` and `TransactionReceipt` fails exactly
when the endpoint call fails; on success it returns the value of the endpoint as it is;
on failure it returns the zero value and an error made by `fmt.Errorf` from the cause,
whose message is the name of the failed call followed by the message of the cause and
whose `Unwrap` is the cause. The cause of `TransactionReceipt` may be any error,
`ethereum.NotFound` included. -/
theorem queries_wrap_the_cause (s : EthSubscriber σ φ) (ctx : context.Context)
    (txHash : common.Hash) (w : Runtime σ) :
    (((s.ChainID ctx w).1.2 ≠ none ↔ (s.ethClient.ChainID ctx).2 ≠ none) ∧
      ((s.LatestHeight ctx w).1.2 ≠ none ↔ (s.ethClient.BlockNumber ctx).2 ≠ none) ∧
      ((s.TransactionReceipt ctx txHash w).1.2 ≠ none ↔
        (s.ethClient.TransactionReceipt ctx txHash).2 ≠ none)) ∧
    ((∀ v, s.ethClient.ChainID ctx = (v, none) → (s.ChainID ctx w).1 = (v, none)) ∧
      (∀ v, s.ethClient.BlockNumber ctx = (v, none) →
        (s.LatestHeight ctx w).1 = (v, none)) ∧
      (∀ v, s.ethClient.TransactionReceipt ctx txHash = (v, none) →
        (s.TransactionReceipt ctx txHash w).1 = (v, none))) ∧
    ((∀ v e, s.ethClient.ChainID ctx = (v, some e) →
        (s.ChainID ctx w).1 = (none, some (fmt.Errorf "get chain ID: " e))) ∧
      (∀ v e, s.ethClient.BlockNumber ctx = (v, some e) →
        (s.LatestHeight ctx w).1 =
          (0, some (fmt.Errorf "get latest Ethereum block number: " e))) ∧
      (∀ v e, s.ethClient.TransactionReceipt ctx txHash = (v, some e) →
        (s.TransactionReceipt ctx txHash w).1 =
          (none, some (fmt.Errorf "get eth Transaction Receipt: " e)))) ∧
    (∀ (lead : String) (e : GoError),
      errors.Unwrap (fmt.Errorf lead e) = some e ∧
        (fmt.Errorf lead e).Error = lead ++ e.Error) := by
  refine ⟨⟨?_, ?_, ?_⟩, ⟨?_, ?_, ?_⟩, ⟨?_, ?_, ?_⟩, ?_⟩
  · rcases hr : s.ethClient.ChainID ctx with ⟨v, _ | e⟩
    · rw [ChainID_ok s ctx w v hr]
    · rw [ChainID_err s ctx w v e hr]; simp
  · rcases hr : s.ethClient.BlockNumber ctx with ⟨v, _ | e⟩
    · rw [LatestHeight_ok s ctx w v hr]
    · rw [LatestHeight_err s ctx w v e hr]; simp
  · rcases hr : s.ethClient.TransactionReceipt ctx txHash with ⟨v, _ | e⟩
    · rw [TransactionReceipt_ok s ctx txHash w v hr]
    · rw [TransactionReceipt_err s ctx txHash w v e hr]; simp
  · intro v hr; rw [ChainID_ok s ctx w v hr]
  · intro v hr; rw [LatestHeight_ok s ctx w v hr]
  · intro v hr; rw [TransactionReceipt_ok s ctx txHash w v hr]
  · intro v e hr; rw [ChainID_err s ctx w v e hr]
  · intro v e hr; rw [LatestHeight_err s ctx w v e hr]
  · intro v e hr; rw [TransactionReceipt_err s ctx txHash w v e hr]
  · intro lead e; exact ⟨rfl, rfl⟩

/-- Claim C5, on a healthy endpoint (latest block 105 gives 105, chain 1 gives 1, the
receipt is handed on), on a broken endpoint (the network error is wrapped) and on an
endpoint whose receipt lookup answers `ethereum.NotFound` (wrapped like any other
cause). -/
theorem queries_wrap_the_cause_witness :
    (((sampleSubscriber healthyEndpoint).ChainID (context.Context.caller 0)
          sampleRuntime).1 = (some 1, none) ∧
      ((sampleSubscriber healthyEndpoint).LatestHeight (context.Context.caller 0)
          sampleRuntime).1 = (105, none) ∧
      ((sampleSubscriber healthyEndpoint).TransactionReceipt (context.Context.caller 0)
          ⟨[171, 205]⟩ sampleRuntime).1 = (some sampleReceipt, none)) ∧
    (((sampleSubscriber brokenEndpoint).ChainID (context.Context.caller 0)
          sampleRuntime).1 =
        (none, some (fmt.Errorf "get chain ID: "
          (GoError.errorString "connection refused"))) ∧
      ((sampleSubscriber brokenEndpoint).LatestHeight (context.Context.caller 0)
          sampleRuntime).1 =
        (0, some (fmt.Errorf "get latest Ethereum block number: "
          (GoError.errorString "connection refused"))) ∧
      ((sampleSubscriber emptyEndpoint).TransactionReceipt (context.Context.caller 0)
          ⟨[171, 205]⟩ sampleRuntime).1 =
        (none, some (fmt.Errorf "get eth Transaction Receipt: " ethereum.NotFound))) ∧
    (fmt.Errorf "get eth Transaction Receipt: " ethereum.NotFound).Error =
      "get eth Transaction Receipt: not found" := by
  have hh := queries_wrap_the_cause (sampleSubscriber healthyEndpoint)
    (context.Context.caller 0) ⟨[171, 205]⟩ sampleRuntime
  have hb := queries_wrap_the_cause (sampleSubscriber brokenEndpoint)
    (context.Context.caller 0) ⟨[171, 205]⟩ sampleRuntime
  have he := queries_wrap_the_cause (sampleSubscriber emptyEndpoint)
    (context.Context.caller 0) ⟨[171, 205]⟩ sampleRuntime
  refine ⟨⟨hh.2.1.1 (some 1) rfl, hh.2.1.2.1 105 rfl, hh.2.1.2.2 (some sampleReceipt) rfl⟩,
    ⟨hb.2.2.1.1 none (GoError.errorString "connection refused") rfl,
      hb.2.2.1.2.1 0 (GoError.errorString "connection refused") rfl,
      he.2.2.1.2.2 none GoError.NotFound rfl⟩, ?_⟩
  rw [(he.2.2.2 "get eth Transaction Receipt: " ethereum.NotFound).2]
  rfl

/-- Claim C7: the listener has no part in the result. Two subscribers on the same
endpoint with any two listeners, whatever their states and clocks, return the same
`(value, error)` pair from `ChainID`, `LatestHeight`, `FinalisedHeight` and
`TransactionReceipt`. -/
theorem results_do_not_depend_on_listener {σ₁ σ₂ : Type} (ec : ethclient.Client)
    (client : rpc.Client) (filterer : contract.StarknetFilterer φ)
    (l₁ : EventListener σ₁) (l₂ : EventListener σ₂) (ctx : context.Context)
    (txHash : common.Hash) (w₁ : Runtime σ₁) (w₂ : Runtime σ₂) :
    ((EthSubscriber.mk ec client filterer l₁).ChainID ctx w₁).1 =
      ((EthSubscriber.mk ec client filterer l₂).ChainID ctx w₂).1 ∧
    ((EthSubscriber.mk ec client filterer l₁).LatestHeight ctx w₁).1 =
      ((EthSubscriber.mk ec client filterer l₂).LatestHeight ctx w₂).1 ∧
    ((EthSubscriber.mk ec client filterer l₁).FinalisedHeight ctx w₁).map Prod.fst =
      ((EthSubscriber.mk ec client filterer l₂).FinalisedHeight ctx w₂).map Prod.fst ∧
    ((EthSubscriber.mk ec client filterer l₁).TransactionReceipt ctx txHash w₁).1 =
      ((EthSubscriber.mk ec client filterer l₂).TransactionReceipt ctx txHash w₂).1 := by
  refine ⟨?_, ?_, ?_, ?_⟩
  · rcases hr : ec.ChainID ctx with ⟨v, _ | e⟩
    · rw [ChainID_ok _ ctx w₁ v hr, ChainID_ok _ ctx w₂ v hr]
    · rw [ChainID_err _ ctx w₁ v e hr, ChainID_err _ ctx w₂ v e hr]
  · rcases hr : ec.BlockNumber ctx with ⟨v, _ | e⟩
    · rw [LatestHeight_ok _ ctx w₁ v hr, LatestHeight_ok _ ctx w₂ v hr]
    · rw [LatestHeight_err _ ctx w₁ v e hr, LatestHeight_err _ ctx w₂ v e hr]
  · rcases hr : ec.HeaderByNumber ctx (some finalizedBlockNumber) with ⟨head, _ | e⟩
    · rcases head with _ | ⟨_ | number⟩
      · rw [FinalisedHeight_nil_head _ ctx w₁ hr, FinalisedHeight_nil_head _ ctx w₂ hr]
        rfl
      · rw [FinalisedHeight_nil_number _ ctx w₁ hr,
          FinalisedHeight_nil_number _ ctx w₂ hr]
        rfl
      · rw [FinalisedHeight_ok _ ctx w₁ number hr, FinalisedHeight_ok _ ctx w₂ number hr]
        rfl
    · cases hb : errors.IsNotFound e
      · rw [FinalisedHeight_err _ ctx w₁ head e hr hb,
          FinalisedHeight_err _ ctx w₂ head e hr hb]
        rfl
      · rw [FinalisedHeight_notFound _ ctx w₁ head e hr hb,
          FinalisedHeight_notFound _ ctx w₂ head e hr hb]
        rfl
  · rcases hr : ec.TransactionReceipt ctx txHash with ⟨v, _ | e⟩
    · rw [TransactionReceipt_ok _ ctx txHash w₁ v hr,
        TransactionReceipt_ok _ ctx txHash w₂ v hr]
    · rw [TransactionReceipt_err _ ctx txHash w₁ v e hr,
        TransactionReceipt_err _ ctx txHash w₂ v e hr]

/-- Claim C9, refuted as stated: an endpoint error of a type of the provider that is not
`ethereum.NotFound` and wraps nothing, but whose `Is` method accepts the sentinel, makes
`FinalisedHeight` return the error "finalised block not found". -/
theorem FinalisedHeight_not_found_without_sentinel :
    (sampleSubscriber providerEndpoint).ethClient.HeaderByNumber (context.Context.caller 0)
        (some finalizedBlockNumber) =
      (none, some (GoError.customError "provider: unknown block" true)) ∧
    ¬ HoldsNotFound (GoError.customError "provider: unknown block" true) ∧
    ((sampleSubscriber providerEndpoint).FinalisedHeight (context.Context.caller 0)
        sampleRuntime).map Prod.fst =
      some (0, some (errors.New "finalised block not found")) := by
  refine ⟨rfl, ?_, rfl⟩
  intro h
  cases h

/-- Claim C9, amended: on an endpoint error `e`, `FinalisedHeight` returns height 0 and
the error "finalised block not found" exactly when `errors.Is` matches `e` with
`ethereum.NotFound`: the sentinel is `e` or sits anywhere inside `e`, or an error on the
way down has an `Is` method that accepts the sentinel. In particular it does so whenever
the sentinel is `e` or sits inside `e`. That error has no cause: `errors.Unwrap` gives
nil, `errors.Is` does not match it with `ethereum.NotFound`, and no number of unwrappings
leads from it to `e` or to `ethereum.NotFound`. Every other `e` is returned wrapped by
`fmt.Errorf`, and one `errors.Unwrap` of the result is `e`. -/
theorem FinalisedHeight_classifies_whole_chain (s : EthSubscriber σ φ)
    (ctx : context.Context) (w : Runtime σ) (head : Option types.Header) (e : GoError)
    (h : s.ethClient.HeaderByNumber ctx (some finalizedBlockNumber) = (head, some e)) :
    ∃ r, s.FinalisedHeight ctx w = some r ∧ r.1.1 = 0 ∧
      (r.1.2 = some (errors.New "finalised block not found") ↔ MatchesNotFound e) ∧
      (HoldsNotFound e → r.1.2 = some (errors.New "finalised block not found")) ∧
      (MatchesNotFound e →
        errors.Unwrap (errors.New "finalised block not found") = none ∧
          errors.IsNotFound (errors.New "finalised block not found") = false ∧
          ∀ n : Nat,
            ¬ unwrapsTo n (errors.New "finalised block not found") e ∧
              ¬ unwrapsTo n (errors.New "finalised block not found") ethereum.NotFound) ∧
      (¬ MatchesNotFound e →
        r.1.2 = some (fmt.Errorf "get finalised Ethereum block: " e) ∧
          errors.Unwrap (fmt.Errorf "get finalised Ethereum block: " e) = some e ∧
          unwrapsTo 1 (fmt.Errorf "get finalised Ethereum block: " e) e) := by
  have hcause : MatchesNotFound e →
      errors.Unwrap (errors.New "finalised block not found") = none ∧
        errors.IsNotFound (errors.New "finalised block not found") = false ∧
        ∀ n : Nat,
          ¬ unwrapsTo n (errors.New "finalised block not found") e ∧
            ¬ unwrapsTo n (errors.New "finalised block not found") ethereum.NotFound := by
    intro hnf
    refine ⟨rfl, rfl, fun n => ⟨?_, ?_⟩⟩
    · apply not_unwrapsTo_errorString
      intro heq
      rw [heq] at hnf
      cases hnf
    · apply not_unwrapsTo_errorString
      intro heq
      cases heq
  cases hb : errors.IsNotFound e
  · have hno : ¬ MatchesNotFound e := by
      intro hnf
      rw [(IsNotFound_iff e).mpr hnf] at hb
      cases hb
    refine ⟨_, FinalisedHeight_err s ctx w head e h hb, rfl, ?_, ?_, hcause, ?_⟩
    · constructor
      · intro heq
        simp [errors.New, fmt.Errorf] at heq
      · intro hnf
        exact absurd hnf hno
    · intro hholds
      exact absurd (MatchesNotFound_of_holds e hholds) hno
    · intro _
      exact ⟨rfl, rfl, rfl⟩
  · have hyes : MatchesNotFound e := (IsNotFound_iff e).mp hb
    refine ⟨_, FinalisedHeight_notFound s ctx w head e h hb, rfl, ?_, ?_, hcause, ?_⟩
    · exact ⟨fun _ => hyes, fun _ => rfl⟩
    · intro _
      rfl
    · intro hno
      exact absurd hyes hno

/-- Claim C9, amended, on three endpoints: the sentinel inside a wrapping and an error
whose `Is` method accepts the sentinel both give the error "finalised block not found";
a network error is returned wrapped, with the network error as its cause. -/
theorem FinalisedHeight_classifies_whole_chain_witness :
    (∃ r, (sampleSubscriber emptyEndpoint).FinalisedHeight (context.Context.caller 0)
        sampleRuntime = some r ∧ r.1.1 = 0 ∧
      r.1.2 = some (errors.New "finalised block not found")) ∧
    (∃ r, (sampleSubscriber providerEndpoint).FinalisedHeight (context.Context.caller 0)
        sampleRuntime = some r ∧ r.1.1 = 0 ∧
      r.1.2 = some (errors.New "finalised block not found")) ∧
    (∃ r, (sampleSubscriber brokenEndpoint).FinalisedHeight (context.Context.caller 0)
        sampleRuntime = some r ∧ r.1.1 = 0 ∧
      r.1.2 = some (fmt.Errorf "get finalised Ethereum block: "
        (GoError.errorString "connection refused")) ∧
      errors.Unwrap (fmt.Errorf "get finalised Ethereum block: "
        (GoError.errorString "connection refused")) =
        some (GoError.errorString "connection refused")) := by
  refine ⟨?_, ?_, ?_⟩
  · obtain ⟨r, hr, h0, _, hholds, _, _⟩ :=
      FinalisedHeight_classifies_whole_chain (sampleSubscriber emptyEndpoint)
        (context.Context.caller 0) sampleRuntime none
        (GoError.wrapError "header: not found" GoError.NotFound) rfl
    exact ⟨r, hr, h0, hholds
      (HoldsNotFound.wrapped "header: not found" GoError.NotFound HoldsNotFound.self)⟩
  · obtain ⟨r, hr, h0, hiff, _, _, _⟩ :=
      FinalisedHeight_classifies_whole_chain (sampleSubscriber providerEndpoint)
        (context.Context.caller 0) sampleRuntime none
        (GoError.customError "provider: unknown block" true) rfl
    exact ⟨r, hr, h0, hiff.mpr (MatchesNotFound.accepts "provider: unknown block")⟩
  · obtain ⟨r, hr, h0, _, _, _, hother⟩ :=
      FinalisedHeight_classifies_whole_chain (sampleSubscriber brokenEndpoint)
        (context.Context.caller 0) sampleRuntime none
        (GoError.errorString "connection refused") rfl
    have hno : ¬ MatchesNotFound (GoError.errorString "connection refused") := by
      intro hnf
      cases hnf
    exact ⟨r, hr, h0, (hother hno).1, (hother hno).2.1⟩

end Results

/-! ## Construction and subscription -/

section Construction

variable {σ τ φ : Type}

/-- Claim C6: `NewEthSubscriber` dials with a one-minute context and an HTTP client whose
transport is the header adapter over the default transport, then binds the filterer on
the dialed connection. It fails exactly when the dial fails or the binding fails; on
every failure the subscriber is nil and the error is the error of the failed step; on
success the error is nil and the subscriber holds the dialed connection, the client made
from it and the bound filterer. -/
theorem NewEthSubscriber_all_or_nothing (P : Packages τ φ) (ethClientAddress : String)
    (coreContractAddress : common.Address) (client : rpc.Client)
    (dialErr : Option GoError) (filterer : contract.StarknetFilterer φ)
    (bindErr : Option GoError)
    (hdial : P.DialOptions
        (context.Context.WithTimeout context.Context.Background time.Minute)
        ethClientAddress ⟨(uniswapHeaderTransport.mk P.DefaultTransport).toRoundTripper⟩ =
      (client, dialErr))
    (hbind : P.NewStarknetFilterer coreContractAddress (P.NewClient client) =
      (filterer, bindErr)) :
    ((NewEthSubscriber P ethClientAddress coreContractAddress :
        Option (EthSubscriber σ φ) × Option GoError).2 ≠ none ↔
      dialErr ≠ none ∨ bindErr ≠ none) ∧
    ((NewEthSubscriber P ethClientAddress coreContractAddress :
        Option (EthSubscriber σ φ) × Option GoError).2 ≠ none →
      (NewEthSubscriber P ethClientAddress coreContractAddress :
        Option (EthSubscriber σ φ) × Option GoError).1 = none) ∧
    (∀ e, dialErr = some e →
      (NewEthSubscriber P ethClientAddress coreContractAddress :
        Option (EthSubscriber σ φ) × Option GoError) = (none, some e)) ∧
    (∀ e, dialErr = none → bindErr = some e →
      (NewEthSubscriber P ethClientAddress coreContractAddress :
        Option (EthSubscriber σ φ) × Option GoError) = (none, some e)) ∧
    (dialErr = none → bindErr = none →
      (NewEthSubscriber P ethClientAddress coreContractAddress :
        Option (EthSubscriber σ φ) × Option GoError) =
        (some ⟨P.NewClient client, client, filterer, SelectiveListener σ⟩, none)) := by
  rcases dialErr with _ | de
  · rcases bindErr with _ | be
    · have hnew : (NewEthSubscriber P ethClientAddress coreContractAddress :
          Option (EthSubscriber σ φ) × Option GoError) =
          (some ⟨P.NewClient client, client, filterer, SelectiveListener σ⟩, none) := by
        simp [NewEthSubscriber, hdial, hbind]
      rw [hnew]
      simp
    · have hnew : (NewEthSubscriber P ethClientAddress coreContractAddress :
          Option (EthSubscriber σ φ) × Option GoError) = (none, some be) := by
        simp [NewEthSubscriber, hdial, hbind]
      rw [hnew]
      simp
  · have hnew : (NewEthSubscriber P ethClientAddress coreContractAddress :
        Option (EthSubscriber σ φ) × Option GoError) = (none, some de) := by
      simp [NewEthSubscriber, hdial]
    rw [hnew]
    simp

/-- Claim C6, on packages whose dial fails on the empty address and whose binding fails
on the empty contract address: a good address and contract give a subscriber, an empty
contract address gives the binding error and no subscriber. -/
theorem NewEthSubscriber_all_or_nothing_witness :
    (NewEthSubscriber samplePackages "https://mainnet.example/v3" ⟨[222, 173]⟩ :
        Option (EthSubscriber Nat (List (bind.WatchOpts × contract.Sink))) ×
          Option GoError) =
      (some ⟨healthyEndpoint, ⟨7⟩, sampleFilterer, SelectiveListener Nat⟩, none) ∧
    (NewEthSubscriber samplePackages "https://mainnet.example/v3" ⟨[]⟩ :
        Option (EthSubscriber Nat (List (bind.WatchOpts × contract.Sink))) ×
          Option GoError) =
      (none, some (GoError.errorString "no contract code")) :=
  ⟨(NewEthSubscriber_all_or_nothing samplePackages "https://mainnet.example/v3"
      ⟨[222, 173]⟩ ⟨7⟩ none sampleFilterer none (by simp [samplePackages])
      (by simp [samplePackages])).2.2.2.2 rfl rfl,
   (NewEthSubscriber_all_or_nothing samplePackages "https://mainnet.example/v3"
      ⟨[]⟩ ⟨7⟩ none sampleFilterer (some (GoError.errorString "no contract code"))
      (by simp [samplePackages]) (by simp [samplePackages])).2.2.2.1
      (GoError.errorString "no contract code") rfl rfl⟩

/-- Claim C8: `WatchLogStateUpdate` returns what the filterer of the subscriber returns
on the options holding the context of the caller and nothing else and on the sink of the
caller; and the filterer of a subscriber made by `NewEthSubscriber` is the one bound at
construction. -/
theorem WatchLogStateUpdate_delegates (s : EthSubscriber σ φ) (ctx : context.Context)
    (sink : contract.Sink) (fs : φ) :
    s.WatchLogStateUpdate ctx sink fs =
        s.filterer.WatchLogStateUpdate { Start := none, Context := ctx } sink fs ∧
    (({ Start := none, Context := ctx } : bind.WatchOpts).Context = ctx ∧
      ({ Start := none, Context := ctx } : bind.WatchOpts).Start = none) ∧
    (∀ (P : Packages τ φ) (ethClientAddress : String)
        (coreContractAddress : common.Address),
      NewEthSubscriber P ethClientAddress coreContractAddress = (some s, none) →
        s.filterer =
          (P.NewStarknetFilterer coreContractAddress
            (P.NewClient
              (P.DialOptions
                (context.Context.WithTimeout context.Context.Background time.Minute)
                ethClientAddress
                ⟨(uniswapHeaderTransport.mk P.DefaultTransport).toRoundTripper⟩).1)).1) := by
  refine ⟨rfl, ⟨rfl, rfl⟩, ?_⟩
  intro P ethClientAddress coreContractAddress hnew
  rcases hd : P.DialOptions
      (context.Context.WithTimeout context.Context.Background time.Minute)
      ethClientAddress ⟨(uniswapHeaderTransport.mk P.DefaultTransport).toRoundTripper⟩ with
    ⟨client, dialErr⟩
  rcases hb : P.NewStarknetFilterer coreContractAddress (P.NewClient client) with
    ⟨filterer, bindErr⟩
  have hall := NewEthSubscriber_cases (σ := σ) P ethClientAddress coreContractAddress
    client dialErr filterer bindErr hd hb
  rcases dialErr with _ | de
  · rcases bindErr with _ | be
    · rw [hall] at hnew
      simp only [Prod.mk.injEq, Option.some.injEq, and_true] at hnew
      rw [← hnew]
    · rw [hall] at hnew
      simp at hnew
  · rw [hall] at hnew
    simp at hnew

/-- Claim C8, on a subscriber made by `NewEthSubscriber` whose filterer remembers what it
is given: after one call the filterer holds one subscription, with the context and the
sink of the caller. -/
theorem WatchLogStateUpdate_delegates_witness :
    (EthSubscriber.mk healthyEndpoint ⟨7⟩ sampleFilterer
        (SelectiveListener Nat)).WatchLogStateUpdate (context.Context.caller 3) ⟨9⟩ [] =
      ((some ⟨0⟩, none), [(⟨none, context.Context.caller 3⟩, ⟨9⟩)]) ∧
    (EthSubscriber.mk healthyEndpoint ⟨7⟩ sampleFilterer (SelectiveListener Nat)).filterer =
      (samplePackages.NewStarknetFilterer ⟨[222, 173]⟩
        (samplePackages.NewClient
          (samplePackages.DialOptions
            (context.Context.WithTimeout context.Context.Background time.Minute)
            "https://mainnet.example/v3"
            ⟨(uniswapHeaderTransport.mk
              samplePackages.DefaultTransport).toRoundTripper⟩).1)).1 :=
  ⟨(WatchLogStateUpdate_delegates (τ := Unit)
      (EthSubscriber.mk healthyEndpoint ⟨7⟩ sampleFilterer (SelectiveListener Nat))
      (context.Context.caller 3) ⟨9⟩ []).1.trans rfl,
   (WatchLogStateUpdate_delegates (τ := Unit)
      (EthSubscriber.mk healthyEndpoint ⟨7⟩ sampleFilterer (SelectiveListener Nat))
      (context.Context.caller 3) ⟨9⟩ []).2.2 samplePackages
      "https://mainnet.example/v3" ⟨[222, 173]⟩
      (by simp [NewEthSubscriber, samplePackages])⟩

end Construction

end l1
